import Mathlib

/-! A verification development for the persistence layer of the
booking-monorepo repository: the generic repository
(packages/libs/db/booking_db/repository.py), the transaction wrapper
(packages/libs/db/booking_db/transaction.py), the hotel listing query
composition (packages/services/hotels/booking_hotels/services/repository.py
and hotel_service.py), the review-statistics read-model, and user
registration (packages/services/users/booking_users/services/user_service.py).

Database tables are modelled as Lean lists of rows, SQL float columns as
rationals, timestamps as naturals, nullable columns as `Option`, and SQL
query composition as executable Lean functions mirroring the Python
statement builders clause by clause. -/

namespace Booking

/-! ## Generic repository (packages/libs/db/booking_db/repository.py)

A SQLAlchemy `Select` over one table is modelled as an optional boolean
predicate on rows; `none` models the `stmt is None` default, which is
`select(self.model)`, i.e. the whole table.  Row identity (`self.model.id`)
is an explicit accessor `idOf`. -/

namespace Repository

variable {α : Type}

/-- Embeds `Repository.list`: take the statement (or the whole-table
default), then apply `offset(skip)` and `limit(limit)` in that order and
materialize the rows. -/
def list (db : List α) (stmt : Option (α → Bool)) (skip limit : Nat) : List α :=
  let pred := stmt.getD fun _ => true
  ((db.filter pred).drop skip).take limit

/-- Embeds `Repository.count`: `select(func.count()).select_from(stmt.subquery())`
on the statement (or the whole-table default); no pagination is applied. -/
def count (db : List α) (stmt : Option (α → Bool)) : Nat :=
  (db.filter (stmt.getD fun _ => true)).length

/-- Embeds `Repository.get`: `select(model).where(model.id == id)` then
`scalars().first()`. -/
def get (idOf : α → Nat) (db : List α) (id : Nat) : Option α :=
  db.find? fun r => decide (idOf r = id)

/-- Embeds `Repository.delete`: `delete(model).where(model.id == id)`;
the returned boolean is `result.rowcount > 0`, where `rowcount` is the
number of rows the DELETE removed. -/
def delete (idOf : α → Nat) (db : List α) (id : Nat) : List α × Bool :=
  let rowcount := db.countP fun r => decide (idOf r = id)
  (db.filter fun r => !decide (idOf r = id), decide (0 < rowcount))

/-- Embeds `Repository.update`:
`update(model).where(model.id == id).values(**data).returning(model)` then
`scalars().first()`.  `applyValues` is the row-level effect of the UPDATE's
SET clause: per SQLAlchemy semantics it sets the columns supplied in `data`
and, in the same statement, every column-level `onupdate` default for
columns not present in `data`.  The rows produced by RETURNING are the
post-update images of the rows matched by the WHERE clause. -/
def update {β : Type} (idOf : α → Nat) (applyValues : β → α → α)
    (db : List α) (id : Nat) (data : β) : List α × Option α :=
  let db2 := db.map fun r => if idOf r = id then applyValues data r else r
  let returned := ((db.filter fun r => decide (idOf r = id)).head?).map (applyValues data)
  (db2, returned)

end Repository

/-! ## Transaction wrapper (packages/libs/db/booking_db/transaction.py) -/

/-- A database session: the last committed state of the database together
with the pending (uncommitted) state that queries on this session see. -/
structure DbSession (σ : Type) where
  committed : σ
  pending : σ
  deriving DecidableEq

/-- `session.commit()`: publish the pending state as the committed state. -/
def DbSession.commit {σ : Type} (s : DbSession σ) : DbSession σ :=
  { committed := s.pending, pending := s.pending }

/-- `session.rollback()`: discard the pending state, reverting to the last
committed state. -/
def DbSession.rollback {σ : Type} (s : DbSession σ) : DbSession σ :=
  { committed := s.committed, pending := s.committed }

/-- Embeds the `transaction` async context manager: run the unit of work
(`yield`), then `session.commit()`; if the body raised, `session.rollback()`
and `raise` the very same exception.  The unit of work is modelled as a
state transformer on the session's pending state paired with the exception
it raised, if any (`ε` is the exception type). -/
def transaction {σ ε : Type} (body : σ → σ × Option ε) (s : DbSession σ) :
    DbSession σ × Option ε :=
  match body s.pending with
  | (p2, none) => (DbSession.commit { committed := s.committed, pending := p2 }, none)
  | (p2, some e) => (DbSession.rollback { committed := s.committed, pending := p2 }, some e)

/-! ## Entity models (packages/libs/shared-models/booking_shared_models/models)

`DateTime` columns are modelled as naturals; a nullable timestamp column is
an `Option Nat`.  `Float` columns (`price`, `ratings`, `rating`) are
modelled as rationals.  The nullable `Hotel.subtitle` and `Hotel.ratings`
columns are modelled as always present, as every row created by the
repository's own seeding code supplies them. -/

/-- The `users` table row (models/user.py).  `created_at` has a
`server_default` of `func.now()`; `updated_at` is NULL until the first
UPDATE, whose column-level `onupdate=func.now()` stamps it. -/
structure UserRow where
  id : Nat
  email : String
  username : String
  hashed_password : String
  is_active : Bool
  created_at : Nat
  updated_at : Option Nat
  deriving DecidableEq

/-- Static metadata of one SQLAlchemy `Column` declaration. -/
structure ColumnSpec where
  name : String
  unique : Bool
  index : Bool
  nullable : Bool
  deriving DecidableEq

/-- The declaration `email = Column(String, unique=True, index=True, nullable=False)`
from models/user.py. -/
def User.email_column : ColumnSpec :=
  { name := "email", unique := true, index := true, nullable := false }

/-- The declaration `username = Column(String, unique=True, index=True, nullable=False)`
from models/user.py. -/
def User.username_column : ColumnSpec :=
  { name := "username", unique := true, index := true, nullable := false }

/-- The `hotels` table row (models/hotel.py). -/
structure Hotel where
  id : Nat
  hotel_code : Nat
  title : String
  subtitle : String
  city : String
  price : ℚ
  ratings : ℚ
  created_at : Nat
  updated_at : Option Nat
  deriving DecidableEq

/-- The `hotel_reviews` table row (models/hotel.py). -/
structure HotelReview where
  id : Nat
  hotel_id : Nat
  reviewer_name : String
  rating : ℚ
  review : String
  date : Option String
  verified : Bool
  created_at : Nat
  deriving DecidableEq

/-! ## Hotel query composer
(packages/services/hotels/booking_hotels/services/repository.py)

`HotelRepository.list_hotels_with_filters` builds one `Select` by chaining
WHERE clauses, applies sorting, derives the count query from the filtered
(unpaginated) statement, and applies `offset`/`limit` last.  Python
truthiness guards (`if city:`, `if star_ratings:`, `if sort_by:`) are
translated explicitly: an empty string or an empty list skips the clause,
while `price_min`/`price_max` use `is not None` checks, so a bound of `0`
is still applied. -/

/-- The conjunction of the WHERE clauses that `list_hotels_with_filters`
chains onto the base query: city equality (case-insensitive, skipped for
`None` or `""`), the star-rating tolerance disjunction
`or_(abs(ratings - r) <= 0.5 for r in star_ratings)` (skipped for `None`
or `[]`), and the two independent price bounds (each skipped only for
`None`). -/
def hotelFilterPred (city : Option String) (star_ratings : Option (List ℚ))
    (price_min price_max : Option ℚ) (h : Hotel) : Bool :=
  (match city with
   | none => true
   | some c => if c = "" then true else decide (h.city.toLower = c.toLower)) &&
  (match star_ratings with
   | none => true
   | some rs => if rs = [] then true else rs.any fun r => decide (|h.ratings - r| ≤ 1/2)) &&
  (match price_min with
   | none => true
   | some m => decide (m ≤ h.price)) &&
  (match price_max with
   | none => true
   | some m => decide (h.price ≤ m))

/-- The `order_by` step: applied only when `sort_by` is truthy (present and
non-empty); `"priceLowToHigh"` sorts ascending by price, `"priceHighToLow"`
descending, any other value leaves the statement unsorted. -/
def sortHotels (sort_by : Option String) (l : List Hotel) : List Hotel :=
  match sort_by with
  | none => l
  | some s =>
      if s = "" then l
      else if s = "priceLowToHigh" then l.mergeSort fun a b => decide (a.price ≤ b.price)
      else if s = "priceHighToLow" then l.mergeSort fun a b => decide (b.price ≤ a.price)
      else l

/-- The filtered and sorted (but unpaginated) hotel statement: steps 1-5 of
`list_hotels_with_filters` before the count query is derived. -/
def hotelsFilteredSorted (db : List Hotel) (city : Option String)
    (star_ratings : Option (List ℚ)) (price_min price_max : Option ℚ)
    (sort_by : Option String) : List Hotel :=
  sortHotels sort_by (db.filter (hotelFilterPred city star_ratings price_min price_max))

/-- Embeds `HotelRepository.list_hotels_with_filters`: build the filtered
sorted statement, count its rows (`select(func.count()).select_from(stmt.subquery())`)
before pagination, then apply `offset(skip).limit(limit)` and materialize.
Returns `(hotels, total)`. -/
def list_hotels_with_filters (db : List Hotel) (city : Option String)
    (star_ratings : Option (List ℚ)) (price_min price_max : Option ℚ)
    (sort_by : Option String) (skip limit : Nat) : List Hotel × Nat :=
  let sorted := hotelsFilteredSorted db city star_ratings price_min price_max sort_by
  let total := sorted.length
  (((sorted.drop skip).take limit), total)

/-- Embeds `HotelReviewRepository.get_review_stats`: one aggregate query for
`(count, avg)` over the hotel's reviews — SQL `AVG` is NULL on zero rows and
the Python `avg_rating or 0` maps that to `0` — then, for each `i` in
`range(1, 6)`, a count of the hotel's reviews with `floor(rating) == i`.
Returns `(average rating, total reviews, star counts for buckets 1..5)`;
the Python `star_counts` dict `{1: _, ..., 5: _}` is modelled as the list of
its values in key order. -/
def get_review_stats (db : List HotelReview) (hotel_id : Nat) :
    ℚ × Nat × List Nat :=
  let rs := db.filter fun r => decide (r.hotel_id = hotel_id)
  let total_reviews := rs.length
  let avg_rating : ℚ :=
    if total_reviews = 0 then 0 else (rs.map fun r => r.rating).sum / (total_reviews : ℚ)
  let star_counts :=
    (List.range' 1 5).map fun i => (rs.filter fun r => decide (⌊r.rating⌋ = (i : ℤ))).length
  (avg_rating, total_reviews, star_counts)

/-! ## Hotel service layer
(packages/services/hotels/booking_hotels/services/hotel_service.py)

`list_hotels` receives a JSON filter payload.  The payload is modelled by
`Filters`: `city?` is the value under the `"city"` key when present
(`filters.get("city", "")` yields `""` when absent); `star_ratings?` is the
list under `"star_ratings"` when present; `priceFilter?` is `some pf` when
the `"priceFilter"` key holds a truthy (non-empty) dict, with `pf.startVal`
and `pf.endVal` the optional values under its `"start"` and `"end"` keys.
Each advanced filter item is modelled by its optional `"sortBy"` value. -/

/-- The `"priceFilter"` dict: `startVal`/`endVal` model the optional
`"start"`/`"end"` keys. -/
structure PriceFilter where
  startVal : Option ℚ
  endVal : Option ℚ
  deriving DecidableEq

/-- The filter payload passed to `list_hotels`. -/
structure Filters where
  city? : Option String
  star_ratings? : Option (List ℚ)
  priceFilter? : Option PriceFilter
  deriving DecidableEq

/-- One advanced-filter item, modelled by its optional `"sortBy"` value. -/
structure AdvFilter where
  sortBy? : Option String
  deriving DecidableEq

/-- The pagination metadata dict returned by `list_hotels`. -/
structure PageMeta where
  currentPage : Nat
  totalPages : Nat
  pageSize : Nat
  totalResults : Nat
  deriving DecidableEq

/-- `city = filters.get("city", "")` followed by the call-site guard
`city if city else None`: an absent key and an empty string both yield
`None`. -/
def serviceCity (f : Filters) : Option String :=
  let city := f.city?.getD ""
  if city = "" then none else some city

/-- `star_ratings = [float(r) for r in filters["star_ratings"]]` guarded by
`if "star_ratings" in filters and filters["star_ratings"]`: an absent key
and an empty list both yield `None`. -/
def serviceStars (f : Filters) : Option (List ℚ) :=
  match f.star_ratings? with
  | none => none
  | some rs => if rs = [] then none else some rs

/-- `price_min = float(price_filter.get("start", 0))` when a truthy
`"priceFilter"` dict is present, else `None`. -/
def servicePriceMin (f : Filters) : Option ℚ :=
  match f.priceFilter? with
  | none => none
  | some pf => some (pf.startVal.getD 0)

/-- `price_max = float(price_filter.get("end", 100000))` when a truthy
`"priceFilter"` dict is present, else `None`. -/
def servicePriceMax (f : Filters) : Option ℚ :=
  match f.priceFilter? with
  | none => none
  | some pf => some (pf.endVal.getD 100000)

/-- The first `"sortBy"` value among the advanced filter items (the Python
loop breaks at the first item carrying the key). -/
def serviceSortBy (advanced_filters : List AdvFilter) : Option String :=
  advanced_filters.findSome? fun a => a.sortBy?

/-- Embeds the service-layer `list_hotels`: extract the filters from the
payload, compute `skip = (page - 1) * page_size`, call
`list_hotels_with_filters` with `limit = page_size`, and compute
`total_pages = math.ceil(total / page_size) if total > 0 else 1` (the exact
ceiling is modelled as `(total + page_size - 1) / page_size` in ℕ).
Returns `(hotels, total, metadata)`. -/
def list_hotels (db : List Hotel) (filters : Filters)
    (advanced_filters : List AdvFilter) (page page_size : Nat) :
    List Hotel × Nat × PageMeta :=
  let skip := (page - 1) * page_size
  let (hotels, total) :=
    list_hotels_with_filters db (serviceCity filters) (serviceStars filters)
      (servicePriceMin filters) (servicePriceMax filters)
      (serviceSortBy advanced_filters) skip page_size
  let total_pages := if 0 < total then (total + page_size - 1) / page_size else 1
  (hotels, total,
    { currentPage := page, totalPages := total_pages, pageSize := page_size,
      totalResults := total })

/-! ## User service layer
(packages/services/users/booking_users/services/user_service.py and
services/repository.py) -/

/-- Domain errors raised by the service layer (booking_api):
`ConflictError` and `NotFoundError`, each carrying its message. -/
inductive DomainError where
  | conflict (msg : String)
  | notFound (msg : String)
  deriving DecidableEq

/-- Embeds `UserRepository.get_by_email`: `get_by(session, email=email)`,
i.e. `select(User).where(User.email == email)` then `first()`. -/
def get_by_email (db : List UserRow) (email : String) : Option UserRow :=
  db.find? fun u => decide (u.email = email)

/-- Embeds `UserRepository.get_by_username`. -/
def get_by_username (db : List UserRow) (username : String) : Option UserRow :=
  db.find? fun u => decide (u.username = username)

/-- Embeds `register_user`: pre-check email uniqueness, then username
uniqueness, raising `ConflictError` before the transaction is entered and
without touching the database; otherwise create the row inside
`transaction(session)` (identity assignment and the `created_at` server
default are modelled by the `nextId` and `now` parameters, password hashing
by the `hash` parameter).  Returns the resulting session together with the
created user or the raised error. -/
def register_user (hash : String → String) (nextId now : Nat)
    (s : DbSession (List UserRow)) (email username password : String) :
    DbSession (List UserRow) × Except DomainError UserRow :=
  match get_by_email s.pending email with
  | some _ => (s, .error (.conflict "User with this email already exists"))
  | none =>
    match get_by_username s.pending username with
    | some _ => (s, .error (.conflict "User with this username already exists"))
    | none =>
      let u : UserRow :=
        { id := nextId, email := email, username := username,
          hashed_password := hash password, is_active := true,
          created_at := now, updated_at := none }
      let (s2, e) := transaction (ε := DomainError) (fun p => (p ++ [u], none)) s
      match e with
      | none => (s2, .ok u)
      | some err => (s2, .error err)

/-! ## User partial update (the SET clause of `Repository.update` at the
`users` table)

`UserUpdateData` models the caller-supplied partial `data` dict of
`Repository.update`; a `none` field is a key absent from the dict.  Per the
column declarations in models/user.py, an UPDATE that omits `updated_at`
stamps it with the column-level `onupdate=func.now()` default; `id` and
`created_at` carry no `onupdate` and are never supplied, so they are
unchanged. -/

/-- The partial update payload for the `users` table. -/
structure UserUpdateData where
  email? : Option String
  username? : Option String
  hashed_password? : Option String
  is_active? : Option Bool
  deriving DecidableEq

/-- The row-level effect of `update(User).values(**data)`: set the supplied
columns, keep the rest, and stamp `updated_at` with its `onupdate` default
`func.now()` (it is never part of the payload). -/
def userApplyValues (now : Nat) (d : UserUpdateData) (u : UserRow) : UserRow :=
  { id := u.id,
    email := d.email?.getD u.email,
    username := d.username?.getD u.username,
    hashed_password := d.hashed_password?.getD u.hashed_password,
    is_active := d.is_active?.getD u.is_active,
    created_at := u.created_at,
    updated_at := some now }

/-- `Repository.update` instantiated at the `users` table. -/
def user_update (now : Nat) (db : List UserRow) (id : Nat)
    (d : UserUpdateData) : List UserRow × Option UserRow :=
  Repository.update (fun u => u.id) (userApplyValues now) db id d

/-! ## General lemmas about the query composer -/

/-- Sorting a statement does not change how many rows it yields. -/
theorem sortHotels_length (sort_by : Option String) (l : List Hotel) :
    (sortHotels sort_by l).length = l.length := by
  unfold sortHotels
  cases sort_by with
  | none => rfl
  | some s =>
      dsimp only
      split_ifs <;> simp [List.length_mergeSort]

/-- Sorting a statement does not change which rows it yields. -/
theorem sortHotels_mem (sort_by : Option String) (l : List Hotel) (h : Hotel) :
    h ∈ sortHotels sort_by l ↔ h ∈ l := by
  unfold sortHotels
  cases sort_by with
  | none => rfl
  | some s =>
      dsimp only
      split_ifs <;> simp [List.mem_mergeSort]

/-- Membership in the unpaginated result of `list_hotels_with_filters`
(skip 0, limit at least the table size) is membership in the table plus
satisfaction of the composed WHERE clauses. -/
theorem mem_list_hotels_with_filters (db : List Hotel) (city : Option String)
    (star_ratings : Option (List ℚ)) (price_min price_max : Option ℚ)
    (sort_by : Option String) (limit : Nat) (hlim : db.length ≤ limit) (h : Hotel) :
    h ∈ (list_hotels_with_filters db city star_ratings price_min price_max
          sort_by 0 limit).1 ↔
      h ∈ db ∧ hotelFilterPred city star_ratings price_min price_max h = true := by
  unfold list_hotels_with_filters hotelsFilteredSorted
  have hlen : (sortHotels sort_by
      (db.filter (hotelFilterPred city star_ratings price_min price_max))).length ≤ limit := by
    rw [sortHotels_length]
    exact le_trans (List.length_filter_le _ _) hlim
  simp only [List.drop_zero, List.take_of_length_le hlen]
  rw [sortHotels_mem]
  simp [List.mem_filter]

/-! ## Claim theorems -/

/-- C2: for every unit of work run under the transaction wrapper, a body
that completes normally gets the session committed (the committed state
becomes the body's resulting pending state), and a body that raises any
exception gets the session rolled back (the pending state reverts to the
state committed before the wrapper ran) with the very same exception value
propagating to the caller unchanged — not swallowed, not wrapped, not
replaced. -/
theorem transaction_commits_on_success_and_reraises_on_failure
    {σ ε : Type} (body : σ → σ × Option ε) (s : DbSession σ) :
    ((body s.pending).2 = none →
      transaction body s =
        ({ committed := (body s.pending).1, pending := (body s.pending).1 }, none)) ∧
    (∀ e : ε, (body s.pending).2 = some e →
      transaction body s =
        ({ committed := s.committed, pending := s.committed }, some e)) := by
  rcases hb : body s.pending with ⟨p2, oe⟩
  constructor
  · intro hnone
    simp only at hnone
    subst hnone
    simp [transaction, hb, DbSession.commit]
  · intro e he
    simp only at he
    subst he
    simp [transaction, hb, DbSession.rollback]

/-- Witness for C2: a committing body `p ↦ p + 1` and a raising body
`p ↦ (p + 1, some "boom")`, both run on the session `⟨0, 0⟩`. -/
theorem transaction_commits_on_success_and_reraises_on_failure_witness :
    (((fun p : Nat => (p + 1, (none : Option String))) ((⟨0, 0⟩ : DbSession Nat).pending)).2
        = none) ∧
    transaction (fun p : Nat => (p + 1, (none : Option String))) (⟨0, 0⟩ : DbSession Nat) =
      ({ committed := 1, pending := 1 }, none) ∧
    (((fun p : Nat => (p + 1, some "boom")) ((⟨7, 7⟩ : DbSession Nat).pending)).2
        = some "boom") ∧
    transaction (fun p : Nat => (p + 1, some "boom")) (⟨7, 7⟩ : DbSession Nat) =
      ({ committed := 7, pending := 7 }, some "boom") := by
  refine ⟨rfl, ?_, rfl, ?_⟩
  · exact (transaction_commits_on_success_and_reraises_on_failure
      (fun p : Nat => (p + 1, (none : Option String))) ⟨0, 0⟩).1 rfl
  · exact (transaction_commits_on_success_and_reraises_on_failure
      (fun p : Nat => (p + 1, some "boom")) ⟨7, 7⟩).2 "boom" rfl

/-- C7: for an id matching no stored row, `Repository.get` returns the
absent sentinel (`none`) and `Repository.delete` returns `false`; both are
total functions of the table, so neither raises; and `delete` returns
`true` exactly when at least one row was actually removed (afterwards no
row with that id remains). -/
theorem get_and_delete_on_absent_id
    {α : Type} (idOf : α → Nat) (db : List α) (id : Nat) :
    ((∀ r ∈ db, idOf r ≠ id) →
      Repository.get idOf db id = none ∧ (Repository.delete idOf db id).2 = false) ∧
    ((Repository.delete idOf db id).2 = true ↔ ∃ r ∈ db, idOf r = id) ∧
    (∀ r ∈ (Repository.delete idOf db id).1, idOf r ≠ id) := by
  refine ⟨?_, ?_, ?_⟩
  · intro habs
    constructor
    · simp only [Repository.get, List.find?_eq_none, decide_eq_true_eq]
      exact habs
    · simp only [Repository.delete, decide_eq_true_eq, decide_eq_false_iff_not, not_lt,
        Nat.le_zero, List.countP_eq_zero]
      intro r hr
      simpa using habs r hr
  · simp [Repository.delete, List.countP_pos_iff]
  · intro r hr
    simp only [Repository.delete, List.mem_filter, Bool.not_eq_true',
      decide_eq_false_iff_not] at hr
    exact hr.2

/-- Witness for C7: the table `[5, 7]` keyed by the identity accessor has
no row with id 9, so `get` returns `none` and `delete` returns `false`. -/
theorem get_and_delete_on_absent_id_witness :
    (∀ r ∈ [5, 7], (fun n : Nat => n) r ≠ 9) ∧
    Repository.get (fun n : Nat => n) [5, 7] 9 = none ∧
    (Repository.delete (fun n : Nat => n) [5, 7] 9).2 = false := by
  have h := (get_and_delete_on_absent_id (fun n : Nat => n) [5, 7] 9).1 (by decide)
  exact ⟨by decide, h.1, h.2⟩

/-- C10: a filter payload whose `"city"` value is the empty string produces
exactly the same listing as a payload with no city filter at all — the
empty string is treated as filter-absent, never as an equality match
against hotels whose city is the empty string. -/
theorem empty_city_filter_equals_absent_city_filter
    (db : List Hotel) (sr : Option (List ℚ)) (pf : Option PriceFilter)
    (af : List AdvFilter) (page page_size : Nat) :
    list_hotels db { city? := some "", star_ratings? := sr, priceFilter? := pf }
        af page page_size =
      list_hotels db { city? := none, star_ratings? := sr, priceFilter? := pf }
        af page page_size := rfl

/-- Witness for C10: the two payloads evaluated on a one-hotel table whose
city is the empty string; the hotel is listed under both payloads. -/
theorem empty_city_filter_equals_absent_city_filter_witness :
    list_hotels
        [{ id := 1, hotel_code := 1, title := "t", subtitle := "s", city := "",
           price := 10, ratings := 3, created_at := 0, updated_at := none }]
        { city? := some "", star_ratings? := none, priceFilter? := none } [] 1 6 =
      list_hotels
        [{ id := 1, hotel_code := 1, title := "t", subtitle := "s", city := "",
           price := 10, ratings := 3, created_at := 0, updated_at := none }]
        { city? := none, star_ratings? := none, priceFilter? := none } [] 1 6 :=
  empty_city_filter_equals_absent_city_filter
    [{ id := 1, hotel_code := 1, title := "t", subtitle := "s", city := "",
       price := 10, ratings := 3, created_at := 0, updated_at := none }]
    none none [] 1 6

/-- C1: `Repository.count` on a statement agrees with the length of
`Repository.list` on the same statement with `skip = 0` and a limit at
least the matching-row count (no effective limit); and the `total` that
`list_hotels_with_filters` returns equals the number of hotels satisfying
the composed city/star-rating/price WHERE clauses with pagination removed,
whatever `skip` and `limit` are. -/
theorem count_agrees_with_unpaginated_list :
    (∀ (α : Type) (db : List α) (stmt : Option (α → Bool)) (limit : Nat),
      Repository.count db stmt ≤ limit →
      (Repository.list db stmt 0 limit).length = Repository.count db stmt) ∧
    (∀ (db : List Hotel) (city : Option String) (sr : Option (List ℚ))
        (pmin pmax : Option ℚ) (sb : Option String) (skip limit : Nat),
      (list_hotels_with_filters db city sr pmin pmax sb skip limit).2 =
        (db.filter (hotelFilterPred city sr pmin pmax)).length) := by
  constructor
  · intro α db stmt limit hlim
    simp only [Repository.list, Repository.count] at *
    simp only [List.drop_zero, List.length_take]
    omega
  · intro db city sr pmin pmax sb skip limit
    simp [list_hotels_with_filters, hotelsFilteredSorted, sortHotels_length]

/-- Witness for C1: the three-row table `[0, 1, 2]` under the whole-table
statement with limit 100. -/
theorem count_agrees_with_unpaginated_list_witness :
    Repository.count [0, 1, 2] (none : Option (Nat → Bool)) ≤ 100 ∧
    (Repository.list [0, 1, 2] (none : Option (Nat → Bool)) 0 100).length =
      Repository.count [0, 1, 2] (none : Option (Nat → Bool)) := by
  refine ⟨by decide, ?_⟩
  exact count_agrees_with_unpaginated_list.1 Nat [0, 1, 2] none 100 (by decide)

/-- C6: for `page ≥ 1` and `page_size ≥ 1`, the service-layer `list_hotels`
pages with `skip = (page - 1) * page_size` — the returned items are exactly
that window of the filtered sorted listing — and its metadata reports
`total_pages = ceil(total / page_size)` when `total > 0` (characterized by
`(total_pages - 1) * page_size < total ≤ total_pages * page_size`) and
`total_pages = 1`, not `0`, when `total = 0`. -/
theorem pagination_skip_and_total_pages
    (db : List Hotel) (f : Filters) (af : List AdvFilter) (page page_size : Nat)
    (_hpage : 1 ≤ page) (hsize : 1 ≤ page_size) :
    (list_hotels db f af page page_size).1 =
      ((hotelsFilteredSorted db (serviceCity f) (serviceStars f)
          (servicePriceMin f) (servicePriceMax f) (serviceSortBy af)).drop
        ((page - 1) * page_size)).take page_size ∧
    (list_hotels db f af page page_size).2.2.currentPage = page ∧
    (list_hotels db f af page page_size).2.2.pageSize = page_size ∧
    (list_hotels db f af page page_size).2.2.totalResults =
      (list_hotels db f af page page_size).2.1 ∧
    ((list_hotels db f af page page_size).2.1 = 0 →
      (list_hotels db f af page page_size).2.2.totalPages = 1) ∧
    (0 < (list_hotels db f af page page_size).2.1 →
      ((list_hotels db f af page page_size).2.2.totalPages - 1) * page_size <
          (list_hotels db f af page page_size).2.1 ∧
        (list_hotels db f af page page_size).2.1 ≤
          (list_hotels db f af page page_size).2.2.totalPages * page_size) := by
  refine ⟨rfl, rfl, rfl, rfl, ?_, ?_⟩
  · intro h0
    have htp : (list_hotels db f af page page_size).2.2.totalPages =
        if 0 < (list_hotels db f af page page_size).2.1 then
          ((list_hotels db f af page page_size).2.1 + page_size - 1) / page_size
        else 1 := rfl
    rw [htp, h0]
    simp
  · intro hpos
    set t := (list_hotels db f af page page_size).2.1 with ht
    have htp : (list_hotels db f af page page_size).2.2.totalPages =
        if 0 < t then (t + page_size - 1) / page_size else 1 := rfl
    rw [htp, if_pos hpos]
    have hsplit : t + page_size - 1 = (t - 1) + page_size := by omega
    rw [hsplit, Nat.add_div_right _ hsize]
    have hdm := Nat.div_add_mod (t - 1) page_size
    have hmlt : (t - 1) % page_size < page_size := Nat.mod_lt _ hsize
    set q := (t - 1) / page_size with hq
    set r := (t - 1) % page_size with hr
    have hmul : (q + 1 - 1) * page_size = page_size * q := by
      rw [Nat.add_sub_cancel]
      exact Nat.mul_comm q page_size
    have hmul2 : (q + 1) * page_size = page_size * q + page_size := by ring
    rw [hmul, hmul2]
    set m := page_size * q with hm
    omega

/-- Witness for C6: page 2 of size 2 over a three-hotel unfiltered table. -/
theorem pagination_skip_and_total_pages_witness :
    1 ≤ 2 ∧ 1 ≤ 2 ∧
    ((list_hotels
        [{ id := 1, hotel_code := 1, title := "a", subtitle := "", city := "x",
           price := 10, ratings := 3, created_at := 0, updated_at := none },
         { id := 2, hotel_code := 2, title := "b", subtitle := "", city := "x",
           price := 20, ratings := 3, created_at := 0, updated_at := none },
         { id := 3, hotel_code := 3, title := "c", subtitle := "", city := "x",
           price := 30, ratings := 3, created_at := 0, updated_at := none }]
        { city? := none, star_ratings? := none, priceFilter? := none }
        [] 2 2).2.1 = 0 →
      (list_hotels
        [{ id := 1, hotel_code := 1, title := "a", subtitle := "", city := "x",
           price := 10, ratings := 3, created_at := 0, updated_at := none },
         { id := 2, hotel_code := 2, title := "b", subtitle := "", city := "x",
           price := 20, ratings := 3, created_at := 0, updated_at := none },
         { id := 3, hotel_code := 3, title := "c", subtitle := "", city := "x",
           price := 30, ratings := 3, created_at := 0, updated_at := none }]
        { city? := none, star_ratings? := none, priceFilter? := none }
        [] 2 2).2.2.totalPages = 1) := by
  refine ⟨by decide, by decide, ?_⟩
  exact (pagination_skip_and_total_pages _
    { city? := none, star_ratings? := none, priceFilter? := none } [] 2 2
    (by decide) (by decide)).2.2.2.2.1

/-- A stored `users` row used to exercise `Repository.update` at the
`users` table. -/
def userRowA : UserRow :=
  { id := 1, email := "old@x", username := "alice", hashed_password := "h",
    is_active := true, created_at := 3, updated_at := some 5 }

/-- The partial payload `{email: "new@x"}`: every other key absent. -/
def userDataEmailOnly : UserUpdateData :=
  { email? := some "new@x", username? := none, hashed_password? := none,
    is_active? := none }

/-- C3, counterexample: updating only `{email: "new@x"}` on a stored user
whose `updated_at` is `5` (at database time `10`) does not leave every
other stored field byte-identical — the `updated_at` column, which the
payload never mentions, changes from `some 5` to `some 10` because of its
column-level `onupdate=func.now()` default. -/
theorem update_changes_unsupplied_updated_at_cex :
    userRowA.updated_at = some 5 ∧
    userDataEmailOnly.email? = some "new@x" ∧
    userDataEmailOnly.username? = none ∧
    userDataEmailOnly.hashed_password? = none ∧
    userDataEmailOnly.is_active? = none ∧
    (user_update 10 [userRowA] 1 userDataEmailOnly).2.map UserRow.updated_at =
      some (some 10) := by
  refine ⟨rfl, rfl, rfl, rfl, rfl, rfl⟩

/-- C3, amended: `Repository.update` at the `users` table changes exactly
the supplied fields plus the automatically maintained `updated_at` column
(stamped with the current database time by its `onupdate` hook); `id`,
`created_at` and every unsupplied regular field keep their pre-update
values, rows with a different id are untouched, no row is added or removed,
and an id with no corresponding row yields `none` and leaves the table
unchanged (no implicit create). -/
theorem update_partial_fields_and_no_implicit_create
    (now : Nat) (db : List UserRow) (id : Nat) (d : UserUpdateData) :
    ((∀ u ∈ db, u.id ≠ id) → user_update now db id d = (db, none)) ∧
    (user_update now db id d).1.length = db.length ∧
    (∀ u ∈ db, u.id ≠ id → u ∈ (user_update now db id d).1) ∧
    (∀ u ∈ db, u.id = id →
      userApplyValues now d u ∈ (user_update now db id d).1 ∧
      (userApplyValues now d u).id = u.id ∧
      (userApplyValues now d u).created_at = u.created_at ∧
      (userApplyValues now d u).updated_at = some now ∧
      (d.email? = none → (userApplyValues now d u).email = u.email) ∧
      (d.username? = none → (userApplyValues now d u).username = u.username) ∧
      (d.hashed_password? = none →
        (userApplyValues now d u).hashed_password = u.hashed_password) ∧
      (d.is_active? = none → (userApplyValues now d u).is_active = u.is_active) ∧
      (∀ v, d.email? = some v → (userApplyValues now d u).email = v) ∧
      (∀ v, d.username? = some v → (userApplyValues now d u).username = v) ∧
      (∀ v, d.hashed_password? = some v →
        (userApplyValues now d u).hashed_password = v) ∧
      (∀ v, d.is_active? = some v → (userApplyValues now d u).is_active = v)) := by
  refine ⟨?_, ?_, ?_, ?_⟩
  · intro habs
    simp only [user_update, Repository.update]
    have hmap : db.map (fun r => if r.id = id then userApplyValues now d r else r)
        = db := by
      have h1 : db.map (fun r => if r.id = id then userApplyValues now d r else r)
          = db.map (fun r => r) :=
        List.map_congr_left (fun a ha => if_neg (habs a ha))
      rw [h1, List.map_id']
    have hfil : db.filter (fun r => decide (r.id = id)) = [] := by
      rw [List.filter_eq_nil_iff]
      intro a ha
      simpa using habs a ha
    rw [hmap, hfil]
    rfl
  · simp [user_update, Repository.update]
  · intro u hu hne
    simp only [user_update, Repository.update]
    have := List.mem_map_of_mem
      (fun r => if r.id = id then userApplyValues now d r else r) hu
    simpa [if_neg hne] using this
  · intro u hu heq
    refine ⟨?_, rfl, rfl, rfl, ?_, ?_, ?_, ?_, ?_, ?_, ?_, ?_⟩
    · simp only [user_update, Repository.update]
      have := List.mem_map_of_mem
        (fun r => if r.id = id then userApplyValues now d r else r) hu
      simpa [if_pos heq] using this
    all_goals
      first
        | (intro h; simp [userApplyValues, h])
        | (intro v h; simp [userApplyValues, h])

/-- Witness for C3's amended theorem: no row of `[userRowA]` has id 2, so
updating id 2 returns `none` and leaves the table unchanged. -/
theorem update_partial_fields_and_no_implicit_create_witness :
    (∀ u ∈ [userRowA], u.id ≠ 2) ∧
    user_update 10 [userRowA] 2 userDataEmailOnly = ([userRowA], none) := by
  refine ⟨by decide, ?_⟩
  exact (update_partial_fields_and_no_implicit_create 10 [userRowA] 2
    userDataEmailOnly).1 (by decide)

/-- A hotel priced above the service layer's implicit 100000 default
price cap. -/
def hotelPricey : Hotel :=
  { id := 1, hotel_code := 1, title := "t", subtitle := "s", city := "pune",
    price := 200000, ratings := 4, created_at := 0, updated_at := none }

/-- C4, counterexample: a payload whose `"priceFilter"` dict supplies only
the `"start"` bound (50).  The claim says the unspecified side is
unbounded, so the hotel priced 200000 (which satisfies `50 ≤ price`) must
be kept; the service layer instead defaults the missing `"end"` to 100000
and excludes it. -/
theorem price_filter_missing_bound_defaults_cex :
    (50 : ℚ) ≤ hotelPricey.price ∧
    (list_hotels [hotelPricey]
        { city? := none, star_ratings? := none,
          priceFilter? := some { startVal := some 50, endVal := none } }
        [] 1 6).1 = [] ∧
    (list_hotels [hotelPricey]
        { city? := none, star_ratings? := none,
          priceFilter? := some { startVal := some 50, endVal := none } }
        [] 1 6).2.1 = 0 := by
  refine ⟨by norm_num [hotelPricey], ?_, ?_⟩ <;>
    norm_num [list_hotels, list_hotels_with_filters, hotelsFilteredSorted,
      sortHotels, hotelFilterPred, serviceCity, serviceStars, servicePriceMin,
      servicePriceMax, serviceSortBy, hotelPricey, List.filter]

/-- C4, amended: at the repository level each price bound is applied
independently and a `None` bound is unbounded on that side; at the service
level, however, a present `"priceFilter"` dict always produces both bounds,
defaulting a missing `"start"` to 0 and a missing `"end"` to 100000 — so a
hotel is kept exactly when `start ≤ price ≤ end` with those defaults, and
supplying only one bound caps the other side at its default rather than
leaving it unbounded. -/
theorem price_bounds_each_side_independent
    : (∀ (db : List Hotel) (pmin pmax : Option ℚ) (h : Hotel),
        h ∈ (list_hotels_with_filters db none none pmin pmax none 0 db.length).1 ↔
          h ∈ db ∧ (∀ m, pmin = some m → m ≤ h.price) ∧
            (∀ m, pmax = some m → h.price ≤ m)) ∧
      (∀ (db : List Hotel) (pf : PriceFilter) (h : Hotel),
        h ∈ (list_hotels db
              { city? := none, star_ratings? := none, priceFilter? := some pf }
              [] 1 db.length).1 ↔
          h ∈ db ∧ pf.startVal.getD 0 ≤ h.price ∧
            h.price ≤ pf.endVal.getD 100000) := by
  have hA : ∀ (db : List Hotel) (pmin pmax : Option ℚ) (h : Hotel),
      h ∈ (list_hotels_with_filters db none none pmin pmax none 0 db.length).1 ↔
        h ∈ db ∧ (∀ m, pmin = some m → m ≤ h.price) ∧
          (∀ m, pmax = some m → h.price ≤ m) := by
    intro db pmin pmax h
    rw [mem_list_hotels_with_filters db none none pmin pmax none db.length le_rfl h]
    simp only [hotelFilterPred]
    cases pmin <;> cases pmax <;> simp
  refine ⟨hA, ?_⟩
  intro db pf h
  have hskip : (1 - 1) * db.length = 0 := by simp
  have hL : (list_hotels db
        { city? := none, star_ratings? := none, priceFilter? := some pf }
        [] 1 db.length).1 =
      (list_hotels_with_filters db none none (some (pf.startVal.getD 0))
        (some (pf.endVal.getD 100000)) none 0 db.length).1 := by
    simp [list_hotels, serviceCity, serviceStars, servicePriceMin,
      servicePriceMax, serviceSortBy]
  rw [hL, hA db (some (pf.startVal.getD 0)) (some (pf.endVal.getD 100000)) h]
  simp

/-- Witness for C4's amended theorem: the repository-level equivalence at
the one-hotel table with only a minimum bound, and the service-level
equivalence at the same table — the pricey hotel passes its explicit
`start` bound but fails the defaulted 100000 `end` bound. -/
theorem price_bounds_each_side_independent_witness :
    (hotelPricey ∈ (list_hotels_with_filters [hotelPricey] none none (some 50)
        none none 0 [hotelPricey].length).1 ↔
      hotelPricey ∈ [hotelPricey] ∧
        (∀ m, (some (50 : ℚ)) = some m → m ≤ hotelPricey.price) ∧
        (∀ m, (none : Option ℚ) = some m → hotelPricey.price ≤ m)) ∧
    (hotelPricey ∈ (list_hotels [hotelPricey]
        { city? := none, star_ratings? := none,
          priceFilter? := some { startVal := some 50, endVal := none } }
        [] 1 [hotelPricey].length).1 ↔
      hotelPricey ∈ [hotelPricey] ∧
        (({ startVal := some 50, endVal := none } : PriceFilter).startVal.getD 0
            ≤ hotelPricey.price) ∧
        hotelPricey.price ≤
          ({ startVal := some 50, endVal := none } : PriceFilter).endVal.getD 100000) :=
  ⟨price_bounds_each_side_independent.1 [hotelPricey] (some 50) none hotelPricey,
   price_bounds_each_side_independent.2 [hotelPricey]
     { startVal := some 50, endVal := none } hotelPricey⟩

/-- The hotel rated 4.6 from the spec's star-rating example. -/
def hotelRated46 : Hotel :=
  { id := 1, hotel_code := 1, title := "a", subtitle := "s", city := "pune",
    price := 100, ratings := 23 / 5, created_at := 0, updated_at := none }

/-- The hotel rated 4.0 from the spec's star-rating example. -/
def hotelRated40 : Hotel :=
  { id := 2, hotel_code := 2, title := "b", subtitle := "s", city := "pune",
    price := 100, ratings := 4, created_at := 0, updated_at := none }

/-- C5: with a non-empty list of target star ratings, the filter keeps a
hotel exactly when its rating is within 0.5 of at least one target — a
disjunction of tolerance windows, not exact set membership; in particular,
with targets `{5.0, 3.0}` the hotel rated 4.6 is kept and the hotel rated
4.0 is not. -/
theorem star_rating_filter_is_tolerance_disjunction :
    (∀ (db : List Hotel) (r0 : ℚ) (rs : List ℚ) (h : Hotel),
      h ∈ (list_hotels_with_filters db none (some (r0 :: rs)) none none none
            0 db.length).1 ↔
        h ∈ db ∧ ∃ r ∈ r0 :: rs, |h.ratings - r| ≤ 1 / 2) ∧
    (list_hotels_with_filters [hotelRated46, hotelRated40] none (some [5, 3])
        none none none 0 2).1 = [hotelRated46] := by
  constructor
  · intro db r0 rs h
    rw [mem_list_hotels_with_filters db none (some (r0 :: rs)) none none none
      db.length le_rfl h]
    simp [hotelFilterPred]
  · have h46 : hotelFilterPred none (some [5, 3]) none none hotelRated46 = true := by
      norm_num [hotelFilterPred, hotelRated46, abs_le]
    have h40 : hotelFilterPred none (some [5, 3]) none none hotelRated40 = false := by
      norm_num [hotelFilterPred, hotelRated40, abs_le]
      all_goals simp
    simp [list_hotels_with_filters, hotelsFilteredSorted, sortHotels,
      List.filter, h46, h40]

/-- Witness for C5: the characterization applied to the concrete two-hotel
table with targets `{5.0, 3.0}`. -/
theorem star_rating_filter_is_tolerance_disjunction_witness :
    hotelRated46 ∈ (list_hotels_with_filters [hotelRated46, hotelRated40] none
        (some ((5 : ℚ) :: [3])) none none none 0
        [hotelRated46, hotelRated40].length).1 ↔
      hotelRated46 ∈ [hotelRated46, hotelRated40] ∧
        ∃ r ∈ (5 : ℚ) :: [3], |hotelRated46.ratings - r| ≤ 1 / 2 :=
  star_rating_filter_is_tolerance_disjunction.1 [hotelRated46, hotelRated40]
    5 [3] hotelRated46

/-- An already-registered user for the registration scenarios. -/
def userRowB : UserRow :=
  { id := 1, email := "a@b", username := "alice", hashed_password := "h",
    is_active := true, created_at := 0, updated_at := none }

/-- The row `register_user` stages when both uniqueness pre-checks pass. -/
def newUserRow (hash : String → String) (nextId now : Nat)
    (email username password : String) : UserRow :=
  { id := nextId, email := email, username := username,
    hashed_password := hash password, is_active := true,
    created_at := now, updated_at := none }

/-- C8, counterexample: the claim's final clause says the storage layer's
own constraint does not enforce email/username uniqueness in this design
path, but models/user.py declares both columns with `unique=True`, so the
storage schema does carry unique constraints on them. -/
theorem user_columns_declared_unique_cex :
    User.email_column.unique = true ∧ User.username_column.unique = true :=
  ⟨rfl, rfl⟩

/-- C8, amended: a registration whose email (or, failing that, whose
username) already belongs to a stored user raises the domain
`ConflictError` ("already exists") before the transaction body begins and
performs no write — the session, committed and pending state alike, is
returned unchanged; when both pre-checks pass, the new user is created and
committed.  The uniqueness pre-check lives in the service layer, and in
addition the storage schema declares both the email and the username
columns `unique=True`, so the storage layer also enforces uniqueness as a
backstop. -/
theorem register_user_conflict_precheck_before_transaction
    (hash : String → String) (nextId now : Nat) (s : DbSession (List UserRow))
    (email username password : String) :
    (∀ u, get_by_email s.pending email = some u →
      register_user hash nextId now s email username password =
        (s, .error (.conflict "User with this email already exists"))) ∧
    (get_by_email s.pending email = none →
      ∀ u, get_by_username s.pending username = some u →
        register_user hash nextId now s email username password =
          (s, .error (.conflict "User with this username already exists"))) ∧
    (get_by_email s.pending email = none →
      get_by_username s.pending username = none →
      register_user hash nextId now s email username password =
        ({ committed := s.pending ++ [newUserRow hash nextId now email username password],
           pending := s.pending ++ [newUserRow hash nextId now email username password] },
         .ok (newUserRow hash nextId now email username password))) ∧
    User.email_column.unique = true ∧ User.username_column.unique = true := by
  refine ⟨?_, ?_, ?_, rfl, rfl⟩
  · intro u hu
    simp [register_user, hu]
  · intro he u hu
    simp [register_user, he, hu]
  · intro he hu
    simp [register_user, he, hu, transaction, DbSession.commit, newUserRow]

/-- Witness for C8's amended theorem: registering `a@b` again on a session
whose pending state already holds `userRowB` hits the email conflict and
leaves the session untouched; registering a fresh email and username on
the same session creates and commits the new user. -/
theorem register_user_conflict_precheck_before_transaction_witness :
    get_by_email ((⟨[userRowB], [userRowB]⟩ : DbSession (List UserRow)).pending)
        "a@b" = some userRowB ∧
    register_user (fun p => p) 2 9 ⟨[userRowB], [userRowB]⟩ "a@b" "bob" "pw" =
      (⟨[userRowB], [userRowB]⟩,
        .error (.conflict "User with this email already exists")) ∧
    get_by_email ((⟨[userRowB], [userRowB]⟩ : DbSession (List UserRow)).pending)
        "c@d" = none ∧
    get_by_username ((⟨[userRowB], [userRowB]⟩ : DbSession (List UserRow)).pending)
        "bob" = none ∧
    register_user (fun p => p) 2 9 ⟨[userRowB], [userRowB]⟩ "c@d" "bob" "pw" =
      (⟨[userRowB, newUserRow (fun p => p) 2 9 "c@d" "bob" "pw"],
        [userRowB, newUserRow (fun p => p) 2 9 "c@d" "bob" "pw"]⟩,
       .ok (newUserRow (fun p => p) 2 9 "c@d" "bob" "pw")) := by
  refine ⟨by decide, ?_, by decide, by decide, ?_⟩
  · exact (register_user_conflict_precheck_before_transaction (fun p => p) 2 9
      ⟨[userRowB], [userRowB]⟩ "a@b" "bob" "pw").1 userRowB (by decide)
  · have h := (register_user_conflict_precheck_before_transaction (fun p => p) 2 9
      ⟨[userRowB], [userRowB]⟩ "c@d" "bob" "pw").2.2.1 (by decide) (by decide)
    simpa using h

/-- Each review whose rating lies in `[1, 5]` falls in exactly one of the
five floor buckets, so the five bucket counts sum to the review count. -/
theorem bucket_counts_sum (l : List HotelReview)
    (h : ∀ r ∈ l, 1 ≤ r.rating ∧ r.rating ≤ 5) :
    (([1, 2, 3, 4, 5] : List Nat).map fun i =>
        (l.filter fun r => decide (⌊r.rating⌋ = (i : ℤ))).length).sum = l.length := by
  induction l with
  | nil => simp
  | cons a t ih =>
    have ha := h a (List.mem_cons_self a t)
    have h1 : (1 : ℤ) ≤ ⌊a.rating⌋ := by
      rw [Int.le_floor]
      exact_mod_cast ha.1
    have h5 : ⌊a.rating⌋ ≤ (5 : ℤ) := by
      have h2 := Int.floor_le_floor (α := ℚ) ha.2
      simpa using h2
    have ht := ih fun r hr => h r (List.mem_cons_of_mem a hr)
    simp only [List.map_cons, List.map_nil, List.sum_cons, List.sum_nil,
      List.filter_cons, List.length_cons] at *
    generalize hg : ⌊a.rating⌋ = g at h1 h5 ⊢
    interval_cases g <;> simp_all <;> omega

/-- C9: for every hotel, `get_review_stats` returns the count of that
hotel's reviews; the arithmetic mean of their ratings, equal to `0` (not
null) when the hotel has no reviews and characterized by
`mean * count = sum of ratings` otherwise; and a five-bucket histogram
whose bucket `i` (for `i` in `1..5`) counts exactly the hotel's reviews
with `floor(rating) = i` — so when every rating lies in `[1, 5]`, the
buckets partition the reviews and their counts sum to the total. -/
theorem review_stats_count_mean_histogram (db : List HotelReview) (hid : Nat) :
    (get_review_stats db hid).2.1 =
      (db.filter fun r => decide (r.hotel_id = hid)).length ∧
    ((db.filter fun r => decide (r.hotel_id = hid)).length = 0 →
      (get_review_stats db hid).1 = 0) ∧
    (0 < (db.filter fun r => decide (r.hotel_id = hid)).length →
      (get_review_stats db hid).1 *
          (((db.filter fun r => decide (r.hotel_id = hid)).length : ℚ)) =
        ((db.filter fun r => decide (r.hotel_id = hid)).map fun r => r.rating).sum) ∧
    (get_review_stats db hid).2.2.length = 5 ∧
    (∀ i : Nat, i < 5 →
      (get_review_stats db hid).2.2[i]? =
        some (((db.filter fun r => decide (r.hotel_id = hid)).filter fun r =>
          decide (⌊r.rating⌋ = (i : ℤ) + 1)).length)) ∧
    ((∀ r ∈ db.filter fun r => decide (r.hotel_id = hid),
        1 ≤ r.rating ∧ r.rating ≤ 5) →
      (get_review_stats db hid).2.2.sum =
        (db.filter fun r => decide (r.hotel_id = hid)).length) := by
  refine ⟨rfl, ?_, ?_, ?_, ?_, ?_⟩
  · intro h0
    simp [get_review_stats, h0]
  · intro hpos
    have hne : ((db.filter fun r => decide (r.hotel_id = hid)).length : ℚ) ≠ 0 := by
      exact_mod_cast Nat.pos_iff_ne_zero.mp hpos
    simp only [get_review_stats]
    rw [if_neg (Nat.pos_iff_ne_zero.mp hpos)]
    exact div_mul_cancel₀ _ hne
  · rfl
  · intro i hi
    have hlist : List.range' 1 5 = [1, 2, 3, 4, 5] := rfl
    show ((List.range' 1 5).map fun i =>
        ((db.filter fun r => decide (r.hotel_id = hid)).filter fun r =>
          decide (⌊r.rating⌋ = (i : ℤ))).length)[i]? = _
    rw [hlist]
    interval_cases i <;> simp
  · intro hrange
    have hlist : List.range' 1 5 = [1, 2, 3, 4, 5] := rfl
    show ((List.range' 1 5).map fun i =>
        ((db.filter fun r => decide (r.hotel_id = hid)).filter fun r =>
          decide (⌊r.rating⌋ = (i : ℤ))).length).sum = _
    rw [hlist]
    exact bucket_counts_sum _ hrange

/-- Witness for C9: the statistics of a hotel with no reviews — count 0,
average 0 (not null), and an all-zero histogram summing to 0. -/
theorem review_stats_count_mean_histogram_witness :
    (([] : List HotelReview).filter fun r => decide (r.hotel_id = 0)).length = 0 ∧
    (get_review_stats [] 0).1 = 0 ∧
    (get_review_stats [] 0).2.1 = 0 ∧
    (∀ r ∈ ([] : List HotelReview).filter fun r => decide (r.hotel_id = 0),
        1 ≤ r.rating ∧ r.rating ≤ 5) ∧
    (get_review_stats [] 0).2.2.sum = 0 := by
  refine ⟨rfl, ?_, ?_, by simp, ?_⟩
  · exact (review_stats_count_mean_histogram [] 0).2.1 rfl
  · exact (review_stats_count_mean_histogram [] 0).1
  · have h := (review_stats_count_mean_histogram [] 0).2.2.2.2.2 (by simp)
    simpa using h

end Booking
